import Mathlib

/-!
Verification of the SmartFlow reminder pipeline: content generation with
retry, reminder scheduling, and multi-channel notification dispatch.

The definitions below are a shallow embedding of the Python sources:

* `smartflow_backend/api/endpoints/reminders.py`
  (`calculate_smart_reminder_schedule`, `create_reminder` stage creation,
  `send_notification`, `mark_reminder_sent`, `get_pending_reminders`);
* `smartflow_backend/core/ai_services/reminder_generator.py`
  (`_call_ai_api` retry policy, `_parse_response`, `generate_reminder`);
* `smartflow_backend/core/notification/websocket_service.py`
  (`WebSocketNotificationService`);
* `smartflow_backend/db/models.py` and `smartflow_backend/db/base.py`
  (the `Reminder` ORM column set).

Time is measured in whole minutes (an `Int`), so `timedelta(minutes=30)`
becomes `30`, `timedelta(hours=6)` becomes `360`, and
`timedelta(days=1)` becomes `1440`.  External effects (the HTTP call, the
JSON decoder of the standard library, the websocket send) are passed in
as explicit behaviour parameters, and Python exceptions are modelled as
explicit `Except` error values.
-/

namespace SmartFlow

/-- Reminder strategy enum from `api/schemas/reminder_schema.py`
(`ReminderStrategy`): values `single`, `multi_round`, `escalating`. -/
inductive ReminderStrategy where
  | single
  | multi_round
  | escalating
  deriving DecidableEq, Repr

/-- Schedule record from `api/schemas/reminder_schema.py`
(`ReminderSchedule`): a mandatory first time and optional second/final
times, in minutes. -/
structure ReminderSchedule where
  first_reminder : Int
  second_reminder : Option Int := none
  final_reminder : Option Int := none
  deriving DecidableEq, Repr

/-- Embedding of `calculate_smart_reminder_schedule` from
`api/endpoints/reminders.py` lines 62-104.  `now` (the value of
`datetime.utcnow()`) is an explicit parameter.  The source first sets
`first_reminder = now + timedelta(hours=1)`, but that value is dead: the
subsequent `if/elif/elif/else` chain over `task_priority` overwrites it
in every case, which the `if .. else if .. else` chain below mirrors.
Then, when a due date exists and is less than 24 h away, the first time
is overridden to `now + 30`; and when the strategy is `multi_round` or
`escalating` and a due date exists, the second/final times are set to
`due - 6h` and `due - 30min`. -/
def calculate_smart_reminder_schedule (now : Int) (due_date : Option Int)
    (task_priority : String) (strategy : ReminderStrategy) : ReminderSchedule :=
  let firstByPriority : Int :=
    if task_priority = "urgent" then now + 30
    else if task_priority = "high" then now + 120
    else if task_priority = "medium" then now + 360
    else now + 1440
  match due_date with
  | none =>
      { first_reminder := firstByPriority }
  | some d =>
      let first : Int := if d - now < 1440 then now + 30 else firstByPriority
      if strategy = ReminderStrategy.multi_round ∨ strategy = ReminderStrategy.escalating then
        { first_reminder := first
          second_reminder := some (d - 360)
          final_reminder := some (d - 30) }
      else
        { first_reminder := first }

/-- Priority-to-offset table stated by the specification (urgent 30 min,
high 2 h, medium 6 h, low 24 h), used to compare the code against the
claimed values. -/
def specPriorityOffset (p : String) : Int :=
  if p = "urgent" then 30
  else if p = "high" then 120
  else if p = "medium" then 360
  else 1440

/-- Stage record as persisted by `create_reminder`
(`api/endpoints/reminders.py` lines 224-254): the fields of the created
`Reminder` rows that the staging logic determines (message, priority and
scheduled time). -/
structure StageReminder where
  message : String
  priority : Int
  reminder_time : Int
  deriving DecidableEq, Repr

/-! ### Content generation client (`core/ai_services/reminder_generator.py`) -/

/-- Exceptions that `_call_ai_api` can raise, from
`reminder_generator.py` lines 146-153: `httpx.RequestError` for
network-level transport failures (timeouts included) and
`httpx.HTTPStatusError` raised by `response.raise_for_status()` for any
4xx/5xx status. -/
inductive ApiError where
  | requestError (msg : String)
  | httpStatusError (statusCode : Nat)
  deriving DecidableEq, Repr

/-- Retry predicate of the `tenacity` decorator on `_call_ai_api`
(`reminder_generator.py` lines 124-127):
`retry_if_exception_type(httpx.RequestError) |
retry_if_exception_type(httpx.HTTPStatusError)`.  The predicate checks
only the exception type, never the HTTP status code, so every
`HTTPStatusError` counts as retryable. -/
def isRetryableError : ApiError → Bool
  | ApiError.requestError _ => true
  | ApiError.httpStatusError _ => true

/-- Backoff of `wait_exponential(multiplier=1, min=2, max=10)`
(`reminder_generator.py` line 123): after the n-th failed attempt the
wait is `multiplier * 2 ^ n` clamped into `[min, max]` =
`max 2 (min (2 ^ n) 10)` seconds. -/
def waitSeconds (attemptNumber : Nat) : Nat :=
  max 2 (min (1 * 2 ^ attemptNumber) 10)

/-- Wire response of the generation endpoint as read by
`_parse_response` (`reminder_generator.py` lines 155-177): the code
reads `raw_response.get("code")`, `raw_response.get("msg")` and
`raw_response.get("data", {}).get("content", "")`.  The `choices` field
records the content an OpenAI-style body `{choices:[{message:
{content}}]}` would carry; `_parse_response` never reads it. -/
structure RawResponse where
  code : Option Int
  msg : Option String
  content : Option String
  choices : Option String
  deriving DecidableEq, Repr

/-- Typed reminder content (`reminder_generator.py` lines 16-22,
pydantic model `ReminderContent`): `title`, `message` and
`urgency_level` are required strings, the other two optional. -/
structure ReminderContent where
  title : String
  message : String
  urgency_level : String
  suggested_action : Option String := none
  motivation_quote : Option String := none
  deriving DecidableEq, Repr

/-- Field dictionary produced by `json.loads` on a JSON object, with
each `ReminderContent` field either present or absent. -/
structure RCDict where
  title : Option String := none
  message : Option String := none
  urgency_level : Option String := none
  suggested_action : Option String := none
  motivation_quote : Option String := none
  deriving DecidableEq, Repr

/-- Result of `json.loads(content)`: a decode failure
(`json.JSONDecodeError`), a JSON object, or a JSON value that is not an
object (for which `ReminderContent(**value)` raises `TypeError`). -/
inductive JsonLoadResult where
  | decodeError
  | dict (d : RCDict)
  | nonDict
  deriving DecidableEq, Repr

/-- Pydantic validation of `ReminderContent(**response_data)`: succeeds
exactly when the three required fields are present; otherwise a
`ValidationError` is raised. -/
def validateReminderContent (d : RCDict) : Option ReminderContent :=
  match d.title, d.message, d.urgency_level with
  | some t, some m, some u =>
      some { title := t, message := m, urgency_level := u,
             suggested_action := d.suggested_action,
             motivation_quote := d.motivation_quote }
  | _, _, _ => none

/-- Python exceptions surfacing from the parsing and generation layer:
`ReminderGeneratorError(msg)` (`reminder_generator.py` lines 31-33) and
the `TypeError` of a keyword expansion of a non-dict. -/
inductive PyError where
  | reminderGeneratorError (msg : String)
  | typeError (msg : String)
  deriving DecidableEq, Repr

/-- Inner `try` block of `_parse_response` over the extracted content
string (`reminder_generator.py` lines 167-177): `json.loads(content)`
then `ReminderContent(**response_data)`; on `JSONDecodeError` the
fallback content `ReminderContent(title="智能提醒", message=content,
urgency_level="medium")` is returned; a `ValidationError` escapes to
the outer handler which re-raises it as
`ReminderGeneratorError("无效的AI响应格式: ...")`. -/
def contentAsReminder (jsonLoads : String → JsonLoadResult) (content : String) :
    Except PyError ReminderContent :=
  match jsonLoads content with
  | JsonLoadResult.dict d =>
      match validateReminderContent d with
      | some rc => Except.ok rc
      | none => Except.error (PyError.reminderGeneratorError "无效的AI响应格式: ValidationError")
  | JsonLoadResult.decodeError =>
      Except.ok { title := "智能提醒", message := content, urgency_level := "medium" }
  | JsonLoadResult.nonDict =>
      Except.error (PyError.typeError "keyword expansion of a non-dict value")

/-- Embedding of `_parse_response` (`reminder_generator.py` lines
155-181).  `raw_response.get("code") != 0` holds both when the field is
absent (`None != 0`) and when it holds a nonzero code; in that case a
`ReminderGeneratorError` with the provider message (default `未知错误`)
is raised.  Otherwise the content string
`raw_response.get("data", {}).get("content", "")` is processed by the
inner block.  The `choices` field of the response is never consulted. -/
def parseResponse (jsonLoads : String → JsonLoadResult) (r : RawResponse) :
    Except PyError ReminderContent :=
  if r.code = some 0 then
    contentAsReminder jsonLoads (r.content.getD "")
  else
    Except.error (PyError.reminderGeneratorError ("AI服务错误: " ++ r.msg.getD "未知错误"))

/-- Message text of an `ApiError`, used when wrapping it via
`f"提醒内容生成失败: {str(e)}"`. -/
def apiErrorMsg : ApiError → String
  | ApiError.requestError m => m
  | ApiError.httpStatusError c => "HTTP status error " ++ toString c

/-- Message text of a `PyError`. -/
def pyErrorMsg : PyError → String
  | PyError.reminderGeneratorError m => m
  | PyError.typeError m => m

/-- Semantics of `_call_ai_api` under its `tenacity` decorator
(`reminder_generator.py` lines 121-153): `stop_after_attempt(3)` with
`reraise=True`, unrolled to the three possible attempts.  The attempt
function `f n` gives the outcome of attempt `n` (0-based).  An attempt
that raises a non-retryable exception reraises it at once; a retryable
failure waits `waitSeconds n` (n the 1-based number of the failed
attempt) and retries, until three attempts have been made, after which
the last exception is reraised.  The result carries the outcome, the
number of attempts made, and the list of waits performed. -/
def callAiApi {α : Type} (f : Nat → Except ApiError α) :
    Except ApiError α × Nat × List Nat :=
  match f 0 with
  | Except.ok a => (Except.ok a, 1, [])
  | Except.error e0 =>
    if isRetryableError e0 then
      match f 1 with
      | Except.ok a => (Except.ok a, 2, [waitSeconds 1])
      | Except.error e1 =>
        if isRetryableError e1 then
          match f 2 with
          | Except.ok a => (Except.ok a, 3, [waitSeconds 1, waitSeconds 2])
          | Except.error e2 => (Except.error e2, 3, [waitSeconds 1, waitSeconds 2])
        else (Except.error e1, 2, [waitSeconds 1])
    else (Except.error e0, 1, [])

/-- Embedding of `generate_reminder` (`reminder_generator.py` lines
183-207): call the API with retries, parse the response, and wrap any
escaping exception `e` into
`ReminderGeneratorError(f"提醒内容生成失败: {str(e)}")`. -/
def generateReminder (f : Nat → Except ApiError RawResponse)
    (jsonLoads : String → JsonLoadResult) : Except PyError ReminderContent :=
  match (callAiApi f).1 with
  | Except.error e =>
      Except.error (PyError.reminderGeneratorError ("提醒内容生成失败: " ++ apiErrorMsg e))
  | Except.ok raw =>
    match parseResponse jsonLoads raw with
    | Except.error e =>
        Except.error (PyError.reminderGeneratorError ("提醒内容生成失败: " ++ pyErrorMsg e))
    | Except.ok rc => Except.ok rc

/-! ### Notification dispatch
(`core/notification/websocket_service.py` and `send_notification` of
`api/endpoints/reminders.py`) -/

/-- State of `WebSocketNotificationService`
(`websocket_service.py` lines 17-21): `active_connections` maps a user
id to a live websocket handle (modelled by a handle id) and
`connection_times` records connect times; a Python dict is modelled as
an association list with at most one entry per key. -/
structure WsState where
  active_connections : List (Nat × Nat)
  connection_times : List (Nat × Int)
  deriving DecidableEq, Repr

/-- Membership test `user_id in self.active_connections`
(`is_user_online`, `websocket_service.py` lines 119-121). -/
def is_user_online (st : WsState) (user_id : Nat) : Bool :=
  st.active_connections.any (fun p => p.1 == user_id)

/-- Embedding of `connect` (`websocket_service.py` lines 23-28): dict
assignment replaces any prior handle for the user and records the
connect time. -/
def wsConnect (st : WsState) (user_id handle : Nat) (time : Int) : WsState :=
  { active_connections :=
      (user_id, handle) :: st.active_connections.filter (fun p => p.1 != user_id)
    connection_times :=
      (user_id, time) :: st.connection_times.filter (fun p => p.1 != user_id) }

/-- Embedding of `disconnect` (`websocket_service.py` lines 30-36):
removes the user from both dicts when present. -/
def wsDisconnect (st : WsState) (user_id : Nat) : WsState :=
  { active_connections := st.active_connections.filter (fun p => p.1 != user_id)
    connection_times := st.connection_times.filter (fun p => p.1 != user_id) }

/-- Behaviour of the underlying `websocket.send_text` call, injected:
it either delivers or raises. -/
inductive SendBehavior where
  | delivers
  | raises
  deriving DecidableEq, Repr

/-- Embedding of
`WebSocketNotificationService.send_reminder_notification`
(`websocket_service.py` lines 38-85): an offline user yields `False`
with the registry untouched; for an online user the JSON frame is sent,
returning `True` on success, while a raising send is caught, the user
is disconnected (handle removed from the registry), and `False` is
returned.  The function itself never raises. -/
def wsSendReminderNotification (st : WsState) (user_id : Nat)
    (send : SendBehavior) : Bool × WsState :=
  if is_user_online st user_id = false then
    (false, st)
  else
    match send with
    | SendBehavior.delivers => (true, st)
    | SendBehavior.raises => (false, wsDisconnect st user_id)

/-- Behaviour of the durable local channel call
`local_notification_service.send_reminder_notification`, injected: it
returns `True`, returns `False`, or raises. -/
inductive OpBehavior where
  | succeeds
  | returnsFalse
  | raises
  deriving DecidableEq, Repr

/-- Per-channel outcome as logged by `send_notification`
(`api/endpoints/reminders.py` lines 122-157): the durable channel is
delivered, reports failure, or has its exception caught; all three are
recorded, none re-raised. -/
inductive LocalOutcome where
  | delivered
  | failed
  | errorCaught
  deriving DecidableEq, Repr

/-- Outcome the durable-channel `try/except` block assigns to each
behaviour of the local service call. -/
def localOutcomeOf : OpBehavior → LocalOutcome
  | OpBehavior.succeeds => LocalOutcome.delivered
  | OpBehavior.returnsFalse => LocalOutcome.failed
  | OpBehavior.raises => LocalOutcome.errorCaught

/-- Result of one dispatch: the durable-channel outcome, whether the
live channel delivered, and the registry state afterwards. -/
structure DispatchResult where
  localOutcome : LocalOutcome
  liveDelivered : Bool
  finalState : WsState
  deriving DecidableEq, Repr

/-- Embedding of `send_notification` (`api/endpoints/reminders.py`
lines 111-160): the durable local channel is attempted inside a
`try/except` that converts any exception into a logged outcome; then
the live websocket channel is attempted through
`wsSendReminderNotification` (itself non-raising), also inside a
`try/except`.  Python exceptions are modelled by the explicit
behaviour values, so the function is total: it returns a
`DispatchResult` for every combination of behaviours. -/
def send_notification (st : WsState) (user_id : Nat)
    (localCall : OpBehavior) (wsSend : SendBehavior) : DispatchResult :=
  let localOutcome := localOutcomeOf localCall
  let ws := wsSendReminderNotification st user_id wsSend
  { localOutcome := localOutcome, liveDelivered := ws.1, finalState := ws.2 }

/-! ### Reminder state transition (`mark_reminder_sent`) -/

/-- Reminder instance as seen by the endpoint handlers: the `is_sent`
flag and message are mapped columns
(`db/models.py` lines 91-100); `status` is a transient instance
attribute the handler assigns (the table has no such column). -/
structure ReminderRec where
  status : Option String := none
  is_sent : Bool := false
  message : String
  deriving DecidableEq, Repr

/-- Embedding of the state-transition core of `mark_reminder_sent`
(`api/endpoints/reminders.py` lines 464-472), after the lookup and
ownership check: it assigns `status = "sent"` and `is_sent = True`,
commits, and then unconditionally calls `send_notification` — there is
no guard on the prior sent state.  The Boolean result records that the
notification dispatch was triggered. -/
def markSentCore (r : ReminderRec) : ReminderRec × Bool :=
  ({ r with status := some "sent", is_sent := true }, true)

/-! ### ORM column set and attribute accesses
(`db/models.py`, `db/base.py`, and the query/constructor sites in
`api/endpoints/reminders.py`) -/

/-- Mapped columns of the `Reminder` model: `id`, `created_at`,
`updated_at` from the declarative `Base` (`db/base.py` lines 9-11) plus
`reminder_time`, `message`, `is_sent`, `priority`, `task_id` from
`class Reminder` (`db/models.py` lines 91-100). -/
def reminderMappedColumns : List String :=
  ["id", "created_at", "updated_at", "reminder_time", "message",
   "is_sent", "priority", "task_id"]

/-- Class attributes of `Reminder` available for queries and keyword
construction: the mapped columns plus the `task` relationship
(`db/models.py` line 100). -/
def reminderClassAttrs : List String :=
  reminderMappedColumns ++ ["task"]

/-- Python class-attribute access `Reminder.<name>`: yields the
attribute when defined, otherwise raises `AttributeError(name)`. -/
def classAttrLookup (attrs : List String) (name : String) : Except String String :=
  if attrs.contains name then Except.ok name else Except.error name

/-- Filter construction of `get_pending_reminders`
(`api/endpoints/reminders.py` lines 352-357): the query accesses
`Reminder.user_id`, `Reminder.status` and `Reminder.reminder_time` in
that order; the first missing attribute aborts the call with
`AttributeError`. -/
def getPendingRemindersFilters : Except String (List String) := do
  let a ← classAttrLookup reminderClassAttrs "user_id"
  let b ← classAttrLookup reminderClassAttrs "status"
  let c ← classAttrLookup reminderClassAttrs "reminder_time"
  pure [a, b, c]

/-- Keyword arguments passed to `Reminder(**reminder_data)` by
`create_reminder` (`api/endpoints/reminders.py` lines 225-230): the
`ReminderCreate` fields `task_id`, `reminder_time`, `message`,
`priority`, `status`, `strategy`, with `status` popped, `reminder_time`
overwritten from the schedule, and `user_id` added. -/
def createReminderKwargs : List String :=
  ["task_id", "reminder_time", "message", "priority", "strategy", "user_id"]

/-- Keyword check of the SQLAlchemy declarative constructor: every
keyword must be an attribute of the class, otherwise `TypeError` names
the first invalid keyword. -/
def declarativeInit (attrs : List String) : List String → Except String Unit
  | [] => Except.ok ()
  | k :: ks => if attrs.contains k then declarativeInit attrs ks else Except.error k

/-- Keyword arguments of the explicit `Reminder(...)` constructor calls
for the second and final stages (`api/endpoints/reminders.py` lines
235-242 and 246-253): `task_id`, `message`, `priority`, `strategy`,
`reminder_time`, `user_id`, in call order. -/
def stageReminderKwargs : List String :=
  ["task_id", "message", "priority", "strategy", "reminder_time", "user_id"]

/-- One `Reminder(...)` constructor call: the declarative keyword check
runs against the class attributes `attrs` and, only when every keyword
is a known attribute, an instance with the given stage fields is
produced; otherwise the `TypeError` (named by the first invalid
keyword) aborts the construction. -/
def reminderConstruct (attrs kwargs : List String) (row : StageReminder) :
    Except String StageReminder :=
  match declarativeInit attrs kwargs with
  | Except.ok _ => Except.ok row
  | Except.error k => Except.error k

/-- Embedding of the stage-creation block of `create_reminder`
(`api/endpoints/reminders.py` lines 224-256) including its constructor
calls: first `Reminder(**reminder_data)` with keywords
`createReminderKwargs` for the main reminder (message and priority from
the request, time from the schedule); then, when the schedule has a
second time, `Reminder(...)` with keywords `stageReminderKwargs`, the
message prefixed by `"即将到期: "` and priority `priority + 1`; then
likewise for the final time with `"最后提醒: "` and `priority + 1` (the
source increments from the request priority both times, not from the
second stage).  The first constructor whose keyword check fails raises
`TypeError` and aborts the request, so no row at all is persisted in
that case.  The attribute list `attrs` is the class attribute set the
checks run against; the deployed program has
`attrs = reminderClassAttrs`. -/
def createReminderRows (attrs : List String) (msg : String) (priority : Int)
    (schedule : ReminderSchedule) : Except String (List StageReminder) := do
  let main ← reminderConstruct attrs createReminderKwargs
    ⟨msg, priority, schedule.first_reminder⟩
  let secondRows ← match schedule.second_reminder with
    | some t => do
        let r ← reminderConstruct attrs stageReminderKwargs
          ⟨"即将到期: " ++ msg, priority + 1, t⟩
        pure [r]
    | none => pure []
  let finalRows ← match schedule.final_reminder with
    | some t => do
        let r ← reminderConstruct attrs stageReminderKwargs
          ⟨"最后提醒: " ++ msg, priority + 1, t⟩
        pure [r]
    | none => pure []
  pure ([main] ++ secondRows ++ finalRows)

/-- AI-content formatting of `create_reminder`
(`api/endpoints/reminders.py` lines 204-209): message becomes
`title\n\nmessage`, then the optional suggested action and motivation
quote are appended. -/
def aiEnrichedMessage (rc : ReminderContent) : String :=
  let base := rc.title ++ "\n\n" ++ rc.message
  let base := match rc.suggested_action with
    | some a => base ++ "\n\n建议行动: " ++ a
    | none => base
  match rc.motivation_quote with
    | some q => base ++ "\n\n💪 " ++ q
    | none => base

/-- Message selection of `create_reminder`
(`api/endpoints/reminders.py` lines 190-215): when `use_ai` is set and
a strategy was supplied, the AI result replaces the message on success,
while any exception from `generate_reminder` is caught
(`except Exception`) and the originally supplied message is kept;
without AI the original message is used directly. -/
def chooseMessage (use_ai hasStrategy : Bool)
    (aiResult : Except PyError ReminderContent) (original : String) : String :=
  if use_ai && hasStrategy then
    match aiResult with
    | Except.ok rc => aiEnrichedMessage rc
    | Except.error _ => original
  else original

end SmartFlow

namespace SmartFlow

/-- C1: the schedule computed by `calculate_smart_reminder_schedule`
matches the spec: with no due date, or a due date at least 24 h away,
the first reminder is `now` plus the priority offset (urgent 30 min,
high 2 h, medium 6 h, low 24 h); with a due date less than 24 h away the
first reminder is `now + 30 min` regardless of priority; second/final
reminders are `due - 6 h` and `due - 30 min` exactly when the strategy
is multi_round or escalating and a due date exists; with no due date and
strategy single exactly one reminder time is produced. -/
theorem schedule_matches_spec (now d : Int) (p : String) (strat : ReminderStrategy)
    (hp : p = "urgent" ∨ p = "high" ∨ p = "medium" ∨ p = "low") :
    ((calculate_smart_reminder_schedule now none p strat).first_reminder
        = now + specPriorityOffset p) ∧
    (1440 ≤ d - now →
      (calculate_smart_reminder_schedule now (some d) p strat).first_reminder
        = now + specPriorityOffset p) ∧
    (d - now < 1440 →
      (calculate_smart_reminder_schedule now (some d) p strat).first_reminder
        = now + 30) ∧
    ((strat = ReminderStrategy.multi_round ∨ strat = ReminderStrategy.escalating) →
      (calculate_smart_reminder_schedule now (some d) p strat).second_reminder
          = some (d - 360) ∧
      (calculate_smart_reminder_schedule now (some d) p strat).final_reminder
          = some (d - 30)) ∧
    (strat = ReminderStrategy.single →
      (calculate_smart_reminder_schedule now (some d) p strat).second_reminder = none ∧
      (calculate_smart_reminder_schedule now (some d) p strat).final_reminder = none) ∧
    ((calculate_smart_reminder_schedule now none p strat).second_reminder = none ∧
     (calculate_smart_reminder_schedule now none p strat).final_reminder = none) := by
  unfold calculate_smart_reminder_schedule specPriorityOffset
  rcases hp with hp | hp | hp | hp <;> subst hp <;>
    refine ⟨?_, ?_, ?_, ?_, ?_, ?_, ?_⟩ <;>
    simp only [] <;>
    first
      | (intro h; split <;> simp_all <;> omega)
      | (intro h; subst h; simp)
      | (split <;> simp_all <;> omega)
      | simp

/-- Witness for `schedule_matches_spec` at now = 0, due = 2000 min,
priority urgent, strategy single. -/
theorem schedule_matches_spec_witness :
    (calculate_smart_reminder_schedule 0 none "urgent" ReminderStrategy.single).first_reminder
        = 0 + specPriorityOffset "urgent" ∧
    (calculate_smart_reminder_schedule 0 (some 2000) "urgent" ReminderStrategy.single).first_reminder
        = 0 + specPriorityOffset "urgent" ∧
    (calculate_smart_reminder_schedule 0 (some 2000) "urgent" ReminderStrategy.single).second_reminder
        = none := by
  have h := schedule_matches_spec 0 2000 "urgent" ReminderStrategy.single (Or.inl rfl)
  exact ⟨h.1, h.2.1 (by decide), (h.2.2.2.2.1 rfl).1⟩

/-- C6 counterexample: with now = 0, a due date only 5 h away (300 min),
priority low and strategy multi_round, all three reminder times exist
but the second (due - 6 h = -60) precedes the first (now + 30), so
`first < second < final` fails as a universal statement. -/
theorem schedule_ordering_counterexample :
    (calculate_smart_reminder_schedule 0 (some 300) "low" ReminderStrategy.multi_round
      = { first_reminder := 30, second_reminder := some (-60), final_reminder := some 270 }) ∧
    ¬ ((30 : Int) < -60) := by
  constructor
  · rfl
  · decide

/-- C6 amended: for strategy multi_round or escalating, whenever the due
date is more than 30 h (1800 min) after now, all three times exist and
satisfy `first < second < final` (30 h suffices for every priority,
since the largest base offset is 24 h and the second stage is due - 6 h). -/
theorem schedule_ordering_far_due (now d : Int) (p : String) (strat : ReminderStrategy)
    (hstrat : strat = ReminderStrategy.multi_round ∨ strat = ReminderStrategy.escalating)
    (hfar : 1800 < d - now) :
    ∃ t2 t3,
      (calculate_smart_reminder_schedule now (some d) p strat).second_reminder = some t2 ∧
      (calculate_smart_reminder_schedule now (some d) p strat).final_reminder = some t3 ∧
      (calculate_smart_reminder_schedule now (some d) p strat).first_reminder < t2 ∧
      t2 < t3 := by
  refine ⟨d - 360, d - 30, ?_⟩
  rcases hstrat with h | h <;> subst h <;>
    simp only [calculate_smart_reminder_schedule] <;>
    split_ifs <;> simp_all <;> omega

/-- Witness for `schedule_ordering_far_due` at now = 0, due = 2000 min,
priority low, strategy escalating. -/
theorem schedule_ordering_far_due_witness :
    ∃ t2 t3,
      (calculate_smart_reminder_schedule 0 (some 2000) "low" ReminderStrategy.escalating).second_reminder = some t2 ∧
      (calculate_smart_reminder_schedule 0 (some 2000) "low" ReminderStrategy.escalating).final_reminder = some t3 ∧
      (calculate_smart_reminder_schedule 0 (some 2000) "low" ReminderStrategy.escalating).first_reminder < t2 ∧
      t2 < t3 :=
  schedule_ordering_far_due 0 2000 "low" ReminderStrategy.escalating (Or.inr rfl) (by decide)

/-- C7 counterexample, at message "m", priority 1 and schedule
(0, some 1000, some 1300): against the actual `Reminder` class
attributes the very first constructor call raises `TypeError` on the
invalid keyword `strategy`, so NO reminder is persisted — there are no
"three persisted Reminders" at all; and even with the two missing
attributes added so construction succeeds, the rows carry priorities
`[1, 2, 2]`, which is not strictly increasing (the final stage equals
the second). -/
theorem stage_rows_counterexample :
    (createReminderRows reminderClassAttrs "m" 1
        { first_reminder := 0, second_reminder := some 1000, final_reminder := some 1300 }
      = Except.error "strategy") ∧
    (createReminderRows (reminderClassAttrs ++ ["strategy", "user_id"]) "m" 1
        { first_reminder := 0, second_reminder := some 1000, final_reminder := some 1300 }
      = Except.ok [⟨"m", 1, 0⟩, ⟨"即将到期: m", 2, 1000⟩, ⟨"最后提醒: m", 2, 1300⟩]) ∧
    ¬ List.Chain' (· < ·)
      ([⟨"m", 1, 0⟩, ⟨"即将到期: m", 2, 1000⟩, ⟨"最后提醒: m", 2, 1300⟩].map
        StageReminder.priority) := by
  refine ⟨rfl, rfl, ?_⟩
  have h : ([⟨"m", 1, 0⟩, ⟨"即将到期: m", 2, 1000⟩, ⟨"最后提醒: m", 2, 1300⟩].map
      StageReminder.priority) = [1, 2, 2] := rfl
  rw [h]
  simp only [List.chain'_cons, List.chain'_singleton, and_true]
  omega

/-- C7 amended: for every `create_reminder` call whose schedule includes
second and final stages, nothing is persisted — against the actual
`Reminder` class attributes the first constructor raises `TypeError` on
the invalid keyword `strategy` and the request aborts; the stage rows
the code attempts to build (and would persist under any attribute set
accepting both keyword lists) give the second and final reminders
priority `p + 1` each — greater than the first stage priority `p` but
equal to each other, not strictly increasing — and messages carrying
the distinct escalation markers `"即将到期: "` and `"最后提醒: "`,
both different from the first stage message and from each other. -/
theorem stage_rows_amended (msg : String) (p t1 t2 t3 : Int) :
    (createReminderRows reminderClassAttrs msg p
        { first_reminder := t1, second_reminder := some t2, final_reminder := some t3 }
      = Except.error "strategy") ∧
    (∀ attrs : List String,
      declarativeInit attrs createReminderKwargs = Except.ok () →
      declarativeInit attrs stageReminderKwargs = Except.ok () →
      createReminderRows attrs msg p
          { first_reminder := t1, second_reminder := some t2, final_reminder := some t3 }
        = Except.ok [⟨msg, p, t1⟩, ⟨"即将到期: " ++ msg, p + 1, t2⟩,
                     ⟨"最后提醒: " ++ msg, p + 1, t3⟩]) ∧
    p < p + 1 ∧
    "即将到期: " ++ msg ≠ msg ∧
    "最后提醒: " ++ msg ≠ msg ∧
    "即将到期: " ++ msg ≠ "最后提醒: " ++ msg := by
  refine ⟨rfl, ?_, by omega, ?_, ?_, ?_⟩
  · intro attrs h1 h2
    simp only [createReminderRows, reminderConstruct, h1, h2]
    rfl
  · intro h
    have hlen := congrArg String.length h
    simp [String.length_append] at hlen
    exact absurd hlen (by decide)
  · intro h
    have hlen := congrArg String.length h
    simp [String.length_append] at hlen
    exact absurd hlen (by decide)
  · intro h
    have hdata := congrArg String.data h
    simp only [String.data_append] at hdata
    exact absurd (List.append_inj_left hdata (by decide)) (by decide)

/-- Witness for `stage_rows_amended` at message "m", priority 1,
schedule (0, some 10, some 20): construction fails on `strategy`
against the real attribute set, and succeeds with priorities 1, 2, 2
once `strategy` and `user_id` are accepted. -/
theorem stage_rows_amended_witness :
    (createReminderRows reminderClassAttrs "m" 1
        { first_reminder := 0, second_reminder := some 10, final_reminder := some 20 }
      = Except.error "strategy") ∧
    createReminderRows (reminderClassAttrs ++ ["strategy", "user_id"]) "m" 1
        { first_reminder := 0, second_reminder := some 10, final_reminder := some 20 }
      = Except.ok [⟨"m", 1, 0⟩, ⟨"即将到期: m", 2, 10⟩, ⟨"最后提醒: m", 2, 20⟩] := by
  have h := stage_rows_amended "m" 1 0 10 20
  exact ⟨h.1, h.2.1 (reminderClassAttrs ++ ["strategy", "user_id"]) rfl rfl⟩

/-- C2 counterexample: the retry predicate of `_call_ai_api` classifies
an HTTP 401 (and 403) authorization failure as retryable, and a call
that fails with 401 on every attempt is tried the full 3 times rather
than failing immediately, so authorization failures ARE retried. -/
theorem retry_auth_counterexample :
    isRetryableError (ApiError.httpStatusError 401) = true ∧
    isRetryableError (ApiError.httpStatusError 403) = true ∧
    (callAiApi (fun _ => (Except.error (ApiError.httpStatusError 401) :
        Except ApiError RawResponse))).2.1 = 3 :=
  ⟨rfl, rfl, rfl⟩

/-- C2 amended: the content-generation call makes at most 3 attempts; a
non-retryable failure of the first attempt surfaces at once after a
single attempt; a retryable failure (any transport error or any HTTP
error-status response, authorization statuses included) leads to a
further attempt, with every backoff wait between 2 and 10 seconds; and
when all three attempts fail retryably, `generate_reminder` surfaces
the failure as a `ReminderGeneratorError` wrapping the last error. -/
theorem retry_policy_amended (f : Nat → Except ApiError RawResponse)
    (jsonLoads : String → JsonLoadResult) :
    (callAiApi f).2.1 ≤ 3 ∧
    (∀ e, f 0 = Except.error e → isRetryableError e = false →
      callAiApi f = (Except.error e, 1, [])) ∧
    (∀ e, f 0 = Except.error e → isRetryableError e = true →
      2 ≤ (callAiApi f).2.1) ∧
    (∀ w ∈ (callAiApi f).2.2, 2 ≤ w ∧ w ≤ 10) ∧
    (∀ e0 e1 e2, f 0 = Except.error e0 → f 1 = Except.error e1 →
      f 2 = Except.error e2 →
      isRetryableError e0 = true → isRetryableError e1 = true →
      generateReminder f jsonLoads
        = Except.error (PyError.reminderGeneratorError
            ("提醒内容生成失败: " ++ apiErrorMsg e2))) := by
  have htotal : ∀ e, isRetryableError e = true := by
    intro e; cases e <;> rfl
  have hwait : ∀ n, 2 ≤ waitSeconds n ∧ waitSeconds n ≤ 10 := by
    intro n
    unfold waitSeconds
    omega
  refine ⟨?_, ?_, ?_, ?_, ?_⟩
  · cases h0 : f 0 with
    | ok a => simp [callAiApi, h0]
    | error e0 =>
      cases h1 : f 1 with
      | ok a => simp [callAiApi, h0, h1, htotal]
      | error e1 =>
        cases h2 : f 2 <;> simp [callAiApi, h0, h1, htotal, *]
  · intro e h0 hnr
    simp [callAiApi, h0, hnr]
  · intro e h0 hr
    cases h1 : f 1 with
    | ok a => simp [callAiApi, h0, h1, htotal]
    | error e1 =>
      cases h2 : f 2 <;> simp [callAiApi, h0, h1, htotal, *]
  · intro w hw
    cases h0 : f 0 with
    | ok a => simp [callAiApi, h0] at hw
    | error e0 =>
      cases h1 : f 1 with
      | ok a =>
        simp [callAiApi, h0, h1, htotal] at hw
        subst hw; exact hwait 1
      | error e1 =>
        cases h2 : f 2 <;> simp [callAiApi, h0, h1, htotal, *] at hw <;>
          rcases hw with hw | hw <;> subst hw
        · exact hwait 1
        · exact hwait 2
        · exact hwait 1
        · exact hwait 2
  · intro e0 e1 e2 h0 h1 h2 hr0 hr1
    unfold generateReminder callAiApi
    rw [h0, h1, h2]
    simp [hr0, hr1]

/-- Witness for `retry_policy_amended` with every attempt failing with
HTTP status 500: at most 3 attempts, and the failure surfaces from
`generate_reminder` as a `ReminderGeneratorError`. -/
theorem retry_policy_amended_witness :
    (callAiApi (fun _ => (Except.error (ApiError.httpStatusError 500) :
        Except ApiError RawResponse))).2.1 ≤ 3 ∧
    generateReminder (fun _ => Except.error (ApiError.httpStatusError 500))
        (fun _ => JsonLoadResult.decodeError)
      = Except.error (PyError.reminderGeneratorError
          ("提醒内容生成失败: " ++ apiErrorMsg (ApiError.httpStatusError 500))) := by
  have h := retry_policy_amended (fun _ => Except.error (ApiError.httpStatusError 500))
    (fun _ => JsonLoadResult.decodeError)
  exact ⟨h.1, h.2.2.2.2 _ _ _ rfl rfl rfl rfl rfl⟩

/-- C4: whenever the provider response has code 0 and its content
string fails to parse as JSON, `_parse_response` returns (rather than
raising) the fallback content with the fixed generic title `智能提醒`,
the raw content text as message, and urgency level `medium`. -/
theorem parse_response_fallback (jsonLoads : String → JsonLoadResult) (r : RawResponse)
    (hcode : r.code = some 0)
    (hbad : jsonLoads (r.content.getD "") = JsonLoadResult.decodeError) :
    parseResponse jsonLoads r
      = Except.ok { title := "智能提醒", message := r.content.getD "",
                    urgency_level := "medium" } := by
  simp [parseResponse, contentAsReminder, hcode, hbad]

/-- Witness for `parse_response_fallback` on the concrete response
(code 0, content "plain text") with a decoder that rejects
everything. -/
theorem parse_response_fallback_witness :
    parseResponse (fun _ => JsonLoadResult.decodeError)
        { code := some 0, msg := none, content := some "plain text", choices := none }
      = Except.ok { title := "智能提醒", message := "plain text",
                    urgency_level := "medium" } := by
  have h := parse_response_fallback (fun _ => JsonLoadResult.decodeError)
    { code := some 0, msg := none, content := some "plain text", choices := none }
    rfl rfl
  exact h

/-- C8 counterexample: an OpenAI-style response, carrying content only
in its `choices` field and no provider `code`, is not accepted:
`_parse_response` raises `ReminderGeneratorError` with the default
`未知错误` provider message instead of extracting
`choices[0].message.content`. -/
theorem parse_openai_counterexample :
    (({ code := none, msg := none, content := none,
        choices := some "hello from openai" } : RawResponse)).choices
      = some "hello from openai" ∧
    parseResponse (fun _ => JsonLoadResult.decodeError)
        { code := none, msg := none, content := none, choices := some "hello from openai" }
      = Except.error (PyError.reminderGeneratorError "AI服务错误: 未知错误") :=
  ⟨rfl, rfl⟩

/-- C8 amended: `_parse_response` handles only the provider-native
format: with code 0 it proceeds on exactly the string
`data.content` (default empty); with a missing or nonzero code it
raises a `ReminderGeneratorError` carrying the provider `msg` (default
`未知错误`); and the OpenAI-style `choices` field is ignored entirely,
so changing it never changes the result. -/
theorem parse_formats_amended (jsonLoads : String → JsonLoadResult) (r : RawResponse) :
    (r.code = some 0 →
      parseResponse jsonLoads r = contentAsReminder jsonLoads (r.content.getD "")) ∧
    (r.code ≠ some 0 →
      parseResponse jsonLoads r
        = Except.error (PyError.reminderGeneratorError
            ("AI服务错误: " ++ r.msg.getD "未知错误"))) ∧
    (∀ ch, parseResponse jsonLoads { r with choices := ch }
        = parseResponse jsonLoads r) := by
  refine ⟨?_, ?_, ?_⟩
  · intro h
    simp [parseResponse, h]
  · intro h
    simp [parseResponse, h]
  · intro ch
    simp [parseResponse]

/-- Witness for `parse_formats_amended`: a code-0 response proceeds on
its content string, and a code-1 response with message "boom" raises
the provider-message error. -/
theorem parse_formats_amended_witness :
    parseResponse (fun _ => JsonLoadResult.decodeError)
        { code := some 0, msg := none, content := some "x", choices := none }
      = contentAsReminder (fun _ => JsonLoadResult.decodeError) "x" ∧
    parseResponse (fun _ => JsonLoadResult.decodeError)
        { code := some 1, msg := some "boom", content := none, choices := none }
      = Except.error (PyError.reminderGeneratorError "AI服务错误: boom") := by
  constructor
  · exact (parse_formats_amended (fun _ => JsonLoadResult.decodeError)
      { code := some 0, msg := none, content := some "x", choices := none }).1 rfl
  · exact (parse_formats_amended (fun _ => JsonLoadResult.decodeError)
      { code := some 1, msg := some "boom", content := none, choices := none }).2.1
      (by decide)

/-- After a disconnect the user has no live handle left. -/
theorem is_user_online_wsDisconnect (st : WsState) (user_id : Nat) :
    is_user_online (wsDisconnect st user_id) user_id = false := by
  simp [is_user_online, wsDisconnect, List.any_eq_true, List.mem_filter]

/-- C3: `send_notification` never raises and keeps its channels
independent: the durable local outcome is determined by the local call
alone, with exceptions caught per channel; an offline recipient makes
the live channel report not-sent with the registry untouched while the
durable channel still completes; a raising live push reports not-sent
and removes the recipient handle from the registry; a successful push
delivers without touching the registry; and the live result and
registry never depend on the durable channel behaviour. -/
theorem send_notification_isolation (st : WsState) (user_id : Nat)
    (localCall : OpBehavior) (wsSend : SendBehavior) :
    ((send_notification st user_id localCall wsSend).localOutcome
        = localOutcomeOf localCall) ∧
    (is_user_online st user_id = false →
      (send_notification st user_id localCall wsSend).liveDelivered = false ∧
      (send_notification st user_id localCall wsSend).finalState = st) ∧
    (is_user_online st user_id = true → wsSend = SendBehavior.raises →
      (send_notification st user_id localCall wsSend).liveDelivered = false ∧
      is_user_online (send_notification st user_id localCall wsSend).finalState user_id
        = false) ∧
    (is_user_online st user_id = true → wsSend = SendBehavior.delivers →
      (send_notification st user_id localCall wsSend).liveDelivered = true ∧
      (send_notification st user_id localCall wsSend).finalState = st) ∧
    (∀ other : OpBehavior,
      (send_notification st user_id other wsSend).liveDelivered
        = (send_notification st user_id localCall wsSend).liveDelivered ∧
      (send_notification st user_id other wsSend).finalState
        = (send_notification st user_id localCall wsSend).finalState) := by
  refine ⟨rfl, ?_, ?_, ?_, fun other => ⟨rfl, rfl⟩⟩
  · intro h
    exact ⟨by simp [send_notification, wsSendReminderNotification, h],
           by simp [send_notification, wsSendReminderNotification, h]⟩
  · intro h hr
    subst hr
    refine ⟨by simp [send_notification, wsSendReminderNotification, h], ?_⟩
    simp [send_notification, wsSendReminderNotification, h,
      is_user_online_wsDisconnect]
  · intro h hd
    subst hd
    exact ⟨by simp [send_notification, wsSendReminderNotification, h],
           by simp [send_notification, wsSendReminderNotification, h]⟩

/-- Witness for `send_notification_isolation`: with only user 7
connected, dispatch to offline user 5 (with the durable channel
raising) skips the live channel and leaves the registry unchanged, and
dispatch to user 7 with a raising push reports not-sent and removes the
handle. -/
theorem send_notification_isolation_witness :
    ((send_notification ⟨[(7, 1)], [(7, 0)]⟩ 5 OpBehavior.raises
        SendBehavior.delivers).liveDelivered = false ∧
      (send_notification ⟨[(7, 1)], [(7, 0)]⟩ 5 OpBehavior.raises
        SendBehavior.delivers).finalState = ⟨[(7, 1)], [(7, 0)]⟩) ∧
    ((send_notification ⟨[(7, 1)], [(7, 0)]⟩ 7 OpBehavior.succeeds
        SendBehavior.raises).liveDelivered = false ∧
      is_user_online (send_notification ⟨[(7, 1)], [(7, 0)]⟩ 7 OpBehavior.succeeds
        SendBehavior.raises).finalState 7 = false) := by
  constructor
  · exact (send_notification_isolation ⟨[(7, 1)], [(7, 0)]⟩ 5 OpBehavior.raises
      SendBehavior.delivers).2.1 (by decide)
  · exact (send_notification_isolation ⟨[(7, 1)], [(7, 0)]⟩ 7 OpBehavior.succeeds
      SendBehavior.raises).2.2.1 (by decide) rfl

/-- C5 counterexample: for a reminder already in state sent, a second
mark-sent call leaves the record unchanged but still triggers the
notification dispatch (the `send_notification` call of
`mark_reminder_sent` is unconditional), so delivery IS re-triggered. -/
theorem mark_sent_retrigger_counterexample :
    (markSentCore { status := some "sent", is_sent := true, message := "m" }).1
      = { status := some "sent", is_sent := true, message := "m" } ∧
    (markSentCore { status := some "sent", is_sent := true, message := "m" }).2 = true :=
  ⟨rfl, rfl⟩

/-- C5 amended: the mark-sent transition is monotonic and idempotent on
the reminder state — it always moves the record to sent (status
`"sent"`, `is_sent` true) without error, and a second call leaves the
state fixed — but every call, including a repeated one, re-triggers
the notification dispatch. -/
theorem mark_sent_idempotent_state (r : ReminderRec) :
    (markSentCore r).1.is_sent = true ∧
    (markSentCore r).1.status = some "sent" ∧
    (markSentCore r).1.message = r.message ∧
    (markSentCore (markSentCore r).1).1 = (markSentCore r).1 ∧
    (markSentCore (markSentCore r).1).2 = true :=
  ⟨rfl, rfl, rfl, rfl, rfl⟩

/-- C9: evaluation of `create_reminder` at the failing input.  The AI
failure handling works as claimed — a `ReminderGeneratorError` from
`generate_reminder` is caught and the originally supplied message kept
— but the subsequent `Reminder(**reminder_data)` construction passes
the keywords `strategy` and `user_id`, neither of which is an attribute
of the `Reminder` model, so the declarative constructor raises
`TypeError` and no reminder is created: the call aborts instead of
succeeding with the plain message. -/
theorem create_reminder_construction_fails :
    chooseMessage true true
        (Except.error (PyError.reminderGeneratorError
          "提醒内容生成失败: HTTP status error 500")) "original message"
      = "original message" ∧
    reminderClassAttrs.contains "strategy" = false ∧
    reminderClassAttrs.contains "user_id" = false ∧
    declarativeInit reminderClassAttrs createReminderKwargs = Except.error "strategy" :=
  ⟨rfl, rfl, rfl, rfl⟩

/-- C10: the `Reminder` model maps exactly the columns `id`,
`created_at`, `updated_at`, `reminder_time`, `message`, `is_sent`,
`priority`, `task_id` — neither `status` nor `user_id` — so the filter
construction of `get_pending_reminders`, which accesses
`Reminder.user_id` and `Reminder.status`, fails with `AttributeError`
(on `user_id`, the first missing attribute) instead of producing the
pending list. -/
theorem pending_reminders_attribute_error :
    reminderMappedColumns
      = ["id", "created_at", "updated_at", "reminder_time", "message",
         "is_sent", "priority", "task_id"] ∧
    reminderClassAttrs.contains "status" = false ∧
    reminderClassAttrs.contains "user_id" = false ∧
    getPendingRemindersFilters = Except.error "user_id" :=
  ⟨rfl, rfl, rfl, rfl⟩

end SmartFlow
